import Mathlib

/-
  Verification development for the EquationExplainer repository.

  The definitions below are a shallow embedding of `src/models.py` and
  `src/equation_explainer.py`.  External library calls are modelled as
  follows: `json.loads` is the executable decoder `jsonLoads`; the regex
  search in `PhysicsEquationExplainer._parse_response` is `extractCandidate`;
  pydantic model construction is an explicit validation function returning
  `Except`; the litellm network call is modelled by passing the raw reply
  text as an argument.  Python exceptions are `Except.error` values.
-/

/-- JSON values as produced by Python's `json.loads`.  Numbers keep their
source lexeme: no verified claim inspects a numeric value, only whether the
payload decodes at all and the shape of strings, arrays and objects. -/
inductive Json where
  | null : Json
  | bool (b : Bool) : Json
  | num (lexeme : String) : Json
  | str (s : String) : Json
  | arr (elems : List Json) : Json
  | obj (members : List (String × Json)) : Json

/-- The left brace character, written via its code point. -/
def lbrace : Char := Char.ofNat 123

/-- The right brace character, written via its code point. -/
def rbrace : Char := Char.ofNat 125

/-- JSON whitespace accepted by Python's decoder between tokens. -/
def jsonWs (c : Char) : Bool :=
  c == ' ' || c == '\t' || c == '\n' || c == '\r'

/-- Drop leading JSON whitespace. -/
def skipWs : List Char → List Char
  | [] => []
  | c :: cs => if jsonWs c then skipWs cs else c :: cs

/-- Value of a hexadecimal digit, if any. -/
def hexDigitVal (c : Char) : Option Nat :=
  if '0' ≤ c ∧ c ≤ '9' then some (c.toNat - '0'.toNat)
  else if 'a' ≤ c ∧ c ≤ 'f' then some (c.toNat - 'a'.toNat + 10)
  else if 'A' ≤ c ∧ c ≤ 'F' then some (c.toNat - 'A'.toNat + 10)
  else none

/-- Parse the body of a JSON string after the opening quote, returning the
decoded characters and the input after the closing quote.  Escapes and the
rejection of raw control characters follow Python's strict decoder. -/
def parseStringBody : Nat → List Char → Except String (List Char × List Char)
  | 0, _ => Except.error "Unterminated string"
  | _ + 1, [] => Except.error "Unterminated string"
  | fuel + 1, c :: cs =>
    if c == '"' then Except.ok ([], cs)
    else if c == '\\' then
      match cs with
      | [] => Except.error "Unterminated string"
      | 'u' :: h1 :: h2 :: h3 :: h4 :: cs2 =>
        match hexDigitVal h1, hexDigitVal h2, hexDigitVal h3, hexDigitVal h4 with
        | some a, some b, some c2, some d =>
          match parseStringBody fuel cs2 with
          | Except.ok (s, r) =>
            Except.ok (Char.ofNat (((a * 16 + b) * 16 + c2) * 16 + d) :: s, r)
          | Except.error e => Except.error e
        | _, _, _, _ => Except.error "Invalid hex escape"
      | e :: cs2 =>
        let esc : Option Char :=
          if e == '"' then some '"'
          else if e == '\\' then some '\\'
          else if e == '/' then some '/'
          else if e == 'b' then some (Char.ofNat 8)
          else if e == 'f' then some (Char.ofNat 12)
          else if e == 'n' then some '\n'
          else if e == 'r' then some '\r'
          else if e == 't' then some '\t'
          else none
        match esc with
        | none => Except.error "Invalid escape"
        | some ch =>
          match parseStringBody fuel cs2 with
          | Except.ok (s, r) => Except.ok (ch :: s, r)
          | Except.error e2 => Except.error e2
    else if c.toNat < 32 then Except.error "Invalid control character"
    else
      match parseStringBody fuel cs with
      | Except.ok (s, r) => Except.ok (c :: s, r)
      | Except.error e => Except.error e

/-- Split the longest run of decimal digits off the front of the input. -/
def takeDigits : List Char → (List Char × List Char)
  | [] => ([], [])
  | c :: cs =>
    if c.isDigit then
      let (ds, r) := takeDigits cs
      (c :: ds, r)
    else ([], c :: cs)

/-- Parse an optional exponent part of a JSON number literal. -/
def parseExpPart (acc : List Char) (cs : List Char) : Except String (List Char × List Char) :=
  match cs with
  | [] => Except.ok (acc, [])
  | e :: rest =>
    if e == 'e' || e == 'E' then
      let (sgn, rest2) :=
        match rest with
        | '+' :: r => (['+'], r)
        | '-' :: r => (['-'], r)
        | _ => (([] : List Char), rest)
      match rest2 with
      | [] => Except.error "Invalid number"
      | d :: _ =>
        if d.isDigit then
          let (ds, r3) := takeDigits rest2
          Except.ok (acc ++ e :: sgn ++ ds, r3)
        else Except.error "Invalid number"
    else Except.ok (acc, cs)

/-- Parse the optional fraction and exponent parts of a JSON number literal. -/
def parseFracExp (acc : List Char) (cs : List Char) : Except String (List Char × List Char) :=
  match cs with
  | '.' :: r =>
    match r with
    | [] => Except.error "Invalid number"
    | d :: _ =>
      if d.isDigit then
        let (ds, r2) := takeDigits r
        parseExpPart (acc ++ '.' :: ds) r2
      else Except.error "Invalid number"
  | _ => parseExpPart acc cs

/-- Parse a JSON number literal (sign, integer part without leading zeros,
optional fraction and exponent), returning its lexeme and the rest. -/
def parseNumberChars (cs : List Char) : Except String (List Char × List Char) :=
  let (sign, cs1) :=
    match cs with
    | '-' :: r => ((['-'] : List Char), r)
    | _ => (([] : List Char), cs)
  match cs1 with
  | [] => Except.error "Expecting value"
  | c :: r =>
    if c == '0' then parseFracExp (sign ++ ['0']) r
    else if c.isDigit then
      let (ds, r2) := takeDigits r
      parseFracExp (sign ++ c :: ds) r2
    else Except.error "Expecting value"

/-- Drop an expected literal run of characters, or fail. -/
def dropLit : List Char → List Char → Option (List Char)
  | [], cs => some cs
  | _ :: _, [] => none
  | p :: ps, c :: cs => if p == c then dropLit ps cs else none

/-- Python dictionaries restricted to string keys and JSON values,
represented as key-unique association lists in insertion order. -/
abbrev PyDict := List (String × Json)

/-- Python dictionary assignment `d[k] = v`: replace the value of an existing
key in place, otherwise append the new binding at the end. -/
def dictSet : PyDict → String → Json → PyDict
  | [], k, v => [(k, v)]
  | (k2, v2) :: rest, k, v =>
    if k2 = k then (k, v) :: rest else (k2, v2) :: dictSet rest k v

/-- Python dictionary lookup: the value of the first (hence, for key-unique
dictionaries, the only) binding of the key. -/
def dictGet : PyDict → String → Option Json
  | [], _ => none
  | (k2, v2) :: rest, k => if k2 = k then some v2 else dictGet rest k

/-- Fold a list of key/value pairs into a dictionary with `dictSet`,
modelling both Python's dict construction from decoded object members and
the `{base, **extra}` merge in `_parse_response`. -/
def dictMerge : PyDict → List (String × Json) → PyDict
  | d, [] => d
  | d, (k, v) :: rest => dictMerge (dictSet d k v) rest

mutual

/-- Parse one JSON value, modelling Python's recursive-descent decoder.
The fuel argument only bounds recursion depth; `jsonLoads` supplies more
fuel than any input can consume, since every nesting level consumes input. -/
def parseValue : Nat → List Char → Except String (Json × List Char)
  | 0, _ => Except.error "Expecting value"
  | fuel + 1, cs =>
    match skipWs cs with
    | [] => Except.error "Expecting value"
    | c :: rest =>
      if c == '"' then
        match parseStringBody (rest.length + 1) rest with
        | Except.ok (s, r) => Except.ok (Json.str (String.mk s), r)
        | Except.error e => Except.error e
      else if c == lbrace then parseMembersFirst fuel rest
      else if c == '[' then parseItemsFirst fuel rest
      else if c == 't' then
        match dropLit ['r', 'u', 'e'] rest with
        | some r => Except.ok (Json.bool true, r)
        | none => Except.error "Expecting value"
      else if c == 'f' then
        match dropLit ['a', 'l', 's', 'e'] rest with
        | some r => Except.ok (Json.bool false, r)
        | none => Except.error "Expecting value"
      else if c == 'n' then
        match dropLit ['u', 'l', 'l'] rest with
        | some r => Except.ok (Json.null, r)
        | none => Except.error "Expecting value"
      else if c == '-' || c.isDigit then
        match parseNumberChars (c :: rest) with
        | Except.ok (ds, r) => Except.ok (Json.num (String.mk ds), r)
        | Except.error e => Except.error e
      else Except.error "Expecting value"

/-- Parse an object after its opening brace: either an immediately closed
empty object or a non-empty member list. -/
def parseMembersFirst : Nat → List Char → Except String (Json × List Char)
  | 0, _ => Except.error "Expecting value"
  | fuel + 1, cs =>
    match skipWs cs with
    | [] => Except.error "Unterminated object"
    | c :: rest =>
      if c == rbrace then Except.ok (Json.obj [], rest)
      else parseMembers fuel (c :: rest) []

/-- Parse the members of a non-empty object.  Members are accumulated with
`dictSet`, mirroring Python's dict construction where a duplicated key keeps
its first position and its last value. -/
def parseMembers : Nat → List Char → List (String × Json) → Except String (Json × List Char)
  | 0, _, _ => Except.error "Expecting value"
  | fuel + 1, cs, acc =>
    match skipWs cs with
    | '"' :: rest =>
      match parseStringBody (rest.length + 1) rest with
      | Except.error e => Except.error e
      | Except.ok (kcs, r1) =>
        match skipWs r1 with
        | ':' :: r2 =>
          match parseValue fuel r2 with
          | Except.error e => Except.error e
          | Except.ok (v, r3) =>
            let acc2 := dictSet acc (String.mk kcs) v
            match skipWs r3 with
            | [] => Except.error "Unterminated object"
            | c :: r4 =>
              if c == ',' then parseMembers fuel r4 acc2
              else if c == rbrace then Except.ok (Json.obj acc2, r4)
              else Except.error "Expecting delimiter"
        | _ => Except.error "Expecting colon"
    | _ => Except.error "Expecting property name"

/-- Parse an array after its opening bracket: either an immediately closed
empty array or a non-empty item list. -/
def parseItemsFirst : Nat → List Char → Except String (Json × List Char)
  | 0, _ => Except.error "Expecting value"
  | fuel + 1, cs =>
    match skipWs cs with
    | [] => Except.error "Unterminated array"
    | c :: rest =>
      if c == ']' then Except.ok (Json.arr [], rest)
      else parseItems fuel (c :: rest) []

/-- Parse the items of a non-empty array. -/
def parseItems : Nat → List Char → List Json → Except String (Json × List Char)
  | 0, _, _ => Except.error "Expecting value"
  | fuel + 1, cs, acc =>
    match parseValue fuel cs with
    | Except.error e => Except.error e
    | Except.ok (v, r) =>
      match skipWs r with
      | [] => Except.error "Unterminated array"
      | c :: r2 =>
        if c == ',' then parseItems fuel r2 (acc ++ [v])
        else if c == ']' then Except.ok (Json.arr (acc ++ [v]), r2)
        else Except.error "Expecting delimiter"

end

/-- Models `json.loads`: decode a complete JSON document, rejecting trailing
data, and fail with a decode error (Python's `json.JSONDecodeError`) on any
malformed input. -/
def jsonLoads (s : String) : Except String Json :=
  match parseValue (3 * s.data.length + 3) s.data with
  | Except.error e => Except.error e
  | Except.ok (v, rest) =>
    match skipWs rest with
    | [] => Except.ok v
    | _ => Except.error "Extra data"

/-- Whether the pattern (first argument) starts the list (second argument). -/
def startsWithChars : List Char → List Char → Bool
  | [], _ => true
  | _ :: _, [] => false
  | p :: ps, c :: cs => p == c && startsWithChars ps cs

/-- Index of the first occurrence of the pattern (second argument) in the
haystack (first argument), if any.  This is the leftmost-match rule of
`re.search` for a literal-prefixed pattern. -/
def findSubstrIdx : List Char → List Char → Option Nat
  | [], pat => if startsWithChars pat [] then some 0 else none
  | c :: rest, pat =>
    if startsWithChars pat (c :: rest) then some 0
    else Option.map (fun i => i + 1) (findSubstrIdx rest pat)

/-- The opening marker of the fenced-block pattern in `_parse_response`. -/
def jsonFenceOpen : String := "```json\n"

/-- The closing marker of the fenced-block pattern in `_parse_response`. -/
def jsonFenceClose : String := "\n```"

/-- Models the regex step of `_parse_response`:
`json_match = re.search(r"` markers `([\s\S]*?)` markers `", content)` and
`json_str = json_match.group(1) if json_match else content`.  The lazy group
takes the text between the first opening marker and the first closing marker
after it; when the pattern does not match, the whole text is kept. -/
def extractCandidate (content : String) : String :=
  match findSubstrIdx content.data jsonFenceOpen.data with
  | none => content
  | some i =>
    let afterOpen := content.data.drop (i + jsonFenceOpen.data.length)
    match findSubstrIdx afterOpen jsonFenceClose.data with
    | none => content
    | some j => String.mk (afterOpen.take j)

/-- Whether `content` contains the fenced-block pattern of `_parse_response`:
an opening marker with a closing marker somewhere after it. -/
def hasJsonFence (content : String) : Bool :=
  match findSubstrIdx content.data jsonFenceOpen.data with
  | none => false
  | some i =>
    (findSubstrIdx (content.data.drop (i + jsonFenceOpen.data.length)) jsonFenceClose.data).isSome

/-- Models `models.ExplanationRequest`: equation to explain with optional
name, optional context and a difficulty level defaulting to
"intermediate".  The pydantic model declares no validators beyond requiring
the `equation` argument, so any strings are representable. -/
structure ExplanationRequest where
  equation : String
  equation_name : Option String
  context : Option String
  difficulty_level : String

/-- Models pydantic construction `ExplanationRequest(...)`: the `equation`
keyword is required (a missing argument raises `ValidationError`), the other
fields are optional with defaults `None`, `None` and `"intermediate"`; no
further validation is declared in `models.py`. -/
def ExplanationRequest.construct (equation : Option String) (equation_name : Option String)
    (context : Option String) (difficulty_level : Option String) :
    Except String ExplanationRequest :=
  match equation with
  | none => Except.error "ValidationError: Field required"
  | some eq =>
    Except.ok
      { equation := eq, equation_name := equation_name, context := context,
        difficulty_level := difficulty_level.getD "intermediate" }

/-- Models `models.IntroductionModel` (the optional nested record of an
explanation). -/
structure IntroductionModel where
  equation_name : String
  equation : String
  overview : String
  significance : String
  context : String
  key_variables : List (String × String)

/-- Models `models.EquationExplanation`: the structured explanation record. -/
structure EquationExplanation where
  equation_name : String
  equation : String
  simple_explanation : String
  detailed_explanation : String
  real_world_example : String
  key_concepts : List String
  introduction : Option IntroductionModel

/-- Python truthiness of `x or fallback` for an optional string: `None` and
the empty string are falsy. -/
def pyOr (x : Option String) (fallback : String) : String :=
  match x with
  | none => fallback
  | some s => if s = "" then fallback else s

/-- Pydantic validation of a required `str` field. -/
def asStr : Option Json → Except String String
  | some (Json.str s) => Except.ok s
  | some _ => Except.error "Input should be a valid string"
  | none => Except.error "Field required"

/-- Pydantic validation of a `list[str]` element list. -/
def strListOfJson : List Json → Except String (List String)
  | [] => Except.ok []
  | Json.str s :: rest =>
    match strListOfJson rest with
    | Except.ok ss => Except.ok (s :: ss)
    | Except.error e => Except.error e
  | _ :: _ => Except.error "Input should be a valid string"

/-- Pydantic validation of a required `list[str]` field. -/
def asStrList : Option Json → Except String (List String)
  | some (Json.arr xs) => strListOfJson xs
  | some _ => Except.error "Input should be a valid list"
  | none => Except.error "Field required"

/-- Pydantic validation of a `dict[str, str]` value. -/
def strPairsOfJson : List (String × Json) → Except String (List (String × String))
  | [] => Except.ok []
  | (k, Json.str s) :: rest =>
    match strPairsOfJson rest with
    | Except.ok ps => Except.ok ((k, s) :: ps)
    | Except.error e => Except.error e
  | _ :: _ => Except.error "Input should be a valid string"

/-- Pydantic validation of `IntroductionModel` from a decoded object:
five required `str` fields and `key_variables` defaulting to an empty dict. -/
def IntroductionModel.ofDict (d : PyDict) : Except String IntroductionModel :=
  match asStr (dictGet d "equation_name") with
  | Except.error e => Except.error e
  | Except.ok en =>
    match asStr (dictGet d "equation") with
    | Except.error e => Except.error e
    | Except.ok eqn =>
      match asStr (dictGet d "overview") with
      | Except.error e => Except.error e
      | Except.ok ov =>
        match asStr (dictGet d "significance") with
        | Except.error e => Except.error e
        | Except.ok sg =>
          match asStr (dictGet d "context") with
          | Except.error e => Except.error e
          | Except.ok cx =>
            match dictGet d "key_variables" with
            | none =>
              Except.ok
                { equation_name := en, equation := eqn, overview := ov,
                  significance := sg, context := cx, key_variables := [] }
            | some (Json.obj kvs) =>
              match strPairsOfJson kvs with
              | Except.error e => Except.error e
              | Except.ok ps =>
                Except.ok
                  { equation_name := en, equation := eqn, overview := ov,
                    significance := sg, context := cx, key_variables := ps }
            | some _ => Except.error "Input should be a valid dictionary"

/-- Pydantic validation of the `Optional[IntroductionModel]` field. -/
def asOptIntroduction : Option Json → Except String (Option IntroductionModel)
  | none => Except.ok none
  | some Json.null => Except.ok none
  | some (Json.obj kvs) =>
    match IntroductionModel.ofDict kvs with
    | Except.ok m => Except.ok (some m)
    | Except.error e => Except.error e
  | some _ => Except.error "Input should be a valid dictionary"

/-- Models pydantic construction `EquationExplanation(**explanation_data)`
performed by `explain_equation` on the parsed dictionary: each required field
is validated; extra keys are ignored; `introduction` is optional. -/
def EquationExplanation.ofDict (d : PyDict) : Except String EquationExplanation :=
  match asStr (dictGet d "equation_name") with
  | Except.error e => Except.error e
  | Except.ok en =>
    match asStr (dictGet d "equation") with
    | Except.error e => Except.error e
    | Except.ok eqn =>
      match asStr (dictGet d "simple_explanation") with
      | Except.error e => Except.error e
      | Except.ok se =>
        match asStr (dictGet d "detailed_explanation") with
        | Except.error e => Except.error e
        | Except.ok de =>
          match asStr (dictGet d "real_world_example") with
          | Except.error e => Except.error e
          | Except.ok rex =>
            match asStrList (dictGet d "key_concepts") with
            | Except.error e => Except.error e
            | Except.ok kc =>
              match asOptIntroduction (dictGet d "introduction") with
              | Except.error e => Except.error e
              | Except.ok intr =>
                Except.ok
                  { equation_name := en, equation := eqn, simple_explanation := se,
                    detailed_explanation := de, real_world_example := rex,
                    key_concepts := kc, introduction := intr }

/-- Models the `PhysicsEquationExplainer` object: its only state is the model
identifier set by `__init__`. -/
structure PhysicsEquationExplainer where
  model : String

/-- Models `PhysicsEquationExplainer.__init__(api_key=None)`.  The body only
assigns the fixed model identifier; the `api_key` argument is never used and
the environment read is commented out in the source, so both parameters are
ignored and construction always succeeds. -/
def PhysicsEquationExplainer.init (api_key : Option String) (env : String → Option String) :
    PhysicsEquationExplainer :=
  { model := "gemini/gemini-2.5-flash" }

/-- The beginner entry of the `difficulty_guidance` dict in `_build_prompt`. -/
def beginnerGuidance : String :=
  "Use simple language and avoid advanced terminology. Focus on intuition."

/-- The intermediate entry of the `difficulty_guidance` dict in `_build_prompt`. -/
def intermediateGuidance : String :=
  "Balance simplicity with technical accuracy. Include mathematical details."

/-- The advanced entry of the `difficulty_guidance` dict in `_build_prompt`. -/
def advancedGuidance : String :=
  "Use precise technical language and advanced concepts. Dive deep into applications."

/-- Models `difficulty_guidance.get(request.difficulty_level,
difficulty_guidance["intermediate"])`: exact-match lookup in the three-entry
dict with the intermediate entry as default. -/
def guidanceFor (level : String) : String :=
  if level = "beginner" then beginnerGuidance
  else if level = "intermediate" then intermediateGuidance
  else if level = "advanced" then advancedGuidance
  else intermediateGuidance

/-- Models `json.dumps(EquationExplanation.model_json_schema(), indent=2)`:
an opaque constant string produced by the external pydantic and json
libraries.  No verified claim depends on its contents, only on its being a
fixed string embedded in every prompt. -/
def equationExplanationSchemaJson : String :=
  "\x7b \"title\": \"EquationExplanation\", \"type\": \"object\" \x7d"

/-- Models `equation_name_info = f"\nEquation Name: {request.equation_name}"
if request.equation_name else ""` with Python truthiness (`None` and the
empty string are falsy). -/
def equationNameInfo (request : ExplanationRequest) : String :=
  match request.equation_name with
  | some n => if n = "" then "" else "\nEquation Name: " ++ n
  | none => ""

/-- Models `context_info = f"\nContext: {request.context}" if request.context
else ""` with Python truthiness. -/
def contextInfo (request : ExplanationRequest) : String :=
  match request.context with
  | some c => if c = "" then "" else "\nContext: " ++ c
  | none => ""

/-- Models `PhysicsEquationExplainer._build_prompt`: the f-string template
with the equation, the optional name/context lines, the schema dump, the
difficulty level and the selected guidance text. -/
def build_prompt (request : ExplanationRequest) : String :=
  "Explain the following physics equation in detail:\n\nEquation: " ++ request.equation
    ++ equationNameInfo request ++ contextInfo request
    ++ "\n\nPlease provide your response in the following JSON format:\n"
    ++ equationExplanationSchemaJson
    ++ "\n\nDifficulty Level: " ++ request.difficulty_level
    ++ "\nGuidance: " ++ guidanceFor request.difficulty_level
    ++ "\n\nReturn ONLY valid JSON, no additional text."

/-- Models `PhysicsEquationExplainer.get_available_equations`: the method
ignores `self` and returns a hardcoded list literal. -/
def get_available_equations : List String :=
  ["Newton's Second Law",
   "Einstein's Mass-Energy Equivalence",
   "SchrÃ¶dinger's Equation",
   "Wave Equation",
   "Heat Conduction Equation",
   "Maxwell's Equations",
   "Ohm's Law",
   "Ideal Gas Law",
   "Universal Law of Gravitation",
   "Coulomb's Law"]

/-- The base dictionary literal of the `return` in `_parse_response`:
`"equation_name": request.equation_name or "Physics Equation"` and
`"equation": request.equation`, written before the `**explanation_data`
unpacking. -/
def responseBase (request : ExplanationRequest) : PyDict :=
  [("equation_name", Json.str (pyOr request.equation_name "Physics Equation")),
   ("equation", Json.str request.equation)]

/-- The dictionary assigned in the `except json.JSONDecodeError` branch of
`_parse_response`, with `content` the full raw reply text. -/
def fallbackExplanationData (content : String) : List (String × Json) :=
  [("simple_explanation", Json.str content),
   ("detailed_explanation", Json.str content),
   ("real_world_example", Json.str "Example not available"),
   ("key_concepts", Json.arr [])]

/-- Models `PhysicsEquationExplainer._parse_response(content, request)`.
The candidate payload is the fenced block if present, else the whole text
(`extractCandidate`).  `json.loads` failure is caught and replaced by the
fallback dictionary; on success the decoded value is unpacked with `**` into
the returned dict literal, which raises a `TypeError` when the value is not
an object and otherwise merges the payload over the base entries. -/
def parse_response (content : String) (request : ExplanationRequest) : Except String PyDict :=
  match jsonLoads (extractCandidate content) with
  | Except.ok (Json.obj kvs) => Except.ok (dictMerge (responseBase request) kvs)
  | Except.ok _ => Except.error "TypeError: argument after ** must be a mapping"
  | Except.error _ => Except.ok (dictMerge (responseBase request) (fallbackExplanationData content))

/-- Models `PhysicsEquationExplainer.explain_equation(request)`.  The litellm
completion call is the external collaborator; `content` stands for the raw
text it returns (`response.choices[0].message.content`).  The prompt built by
`build_prompt` is sent out but does not influence the locally computed
result, which is `EquationExplanation(**self._parse_response(content,
request))`. -/
def explain_equation (request : ExplanationRequest) (content : String) :
    Except String EquationExplanation :=
  match parse_response content request with
  | Except.error e => Except.error e
  | Except.ok d => EquationExplanation.ofDict d

/-- A concrete request used by witnesses and counterexamples. -/
def reqNewton : ExplanationRequest :=
  { equation := "F = ma", equation_name := some "Newton's Second Law",
    context := none, difficulty_level := "intermediate" }

/-- Two strings with the same character data are equal. -/
theorem strOfDataEq {a b : String} (h : a.data = b.data) : a = b := by
  cases a
  cases b
  exact congrArg String.mk h

/-- The character data of an appended string is the appended data. -/
theorem strDataAppend (a b : String) : (a ++ b).data = a.data ++ b.data := by
  cases a
  cases b
  rfl

/-- Looking up the key just set returns the new value. -/
theorem dictGet_dictSet_self (d : PyDict) (k : String) (v : Json) :
    dictGet (dictSet d k v) k = some v := by
  induction d with
  | nil => simp [dictSet, dictGet]
  | cons p rest ih =>
    obtain ⟨k2, v2⟩ := p
    by_cases h : k2 = k
    · simp [dictSet, dictGet, h]
    · simp [dictSet, dictGet, h, ih]

/-- Setting one key leaves lookups of other keys unchanged. -/
theorem dictGet_dictSet_ne (d : PyDict) (k k2 : String) (v : Json) (h : k2 ≠ k) :
    dictGet (dictSet d k2 v) k = dictGet d k := by
  induction d with
  | nil => simp [dictSet, dictGet, h]
  | cons p rest ih =>
    obtain ⟨k3, v3⟩ := p
    by_cases h3 : k3 = k2
    · simp [dictSet, dictGet, h3, h]
    · by_cases h4 : k3 = k
      · simp [dictSet, dictGet, h3, h4, Ne.symm h]
      · simp [dictSet, dictGet, h3, h4, ih]

/-- Merging pairs none of which carries the key leaves its lookup unchanged. -/
theorem dictGet_dictMerge_of_not_mem (kvs : List (String × Json)) (d : PyDict) (k : String)
    (h : ∀ p ∈ kvs, p.1 ≠ k) : dictGet (dictMerge d kvs) k = dictGet d k := by
  induction kvs generalizing d with
  | nil => simp [dictMerge]
  | cons p rest ih =>
    obtain ⟨k2, v2⟩ := p
    rw [dictMerge]
    rw [ih (dictSet d k2 v2) (fun q hq => h q (List.mem_cons_of_mem _ hq))]
    exact dictGet_dictSet_ne d k k2 v2 (h (k2, v2) (List.mem_cons_self _ _))

/-- A key absent from a dictionary lookup is carried by none of its pairs. -/
theorem forall_ne_of_dictGet_eq_none (k : String) (kvs : PyDict) :
    dictGet kvs k = none → ∀ p ∈ kvs, p.1 ≠ k := by
  induction kvs with
  | nil =>
    intro _ p hp
    cases hp
  | cons q rest ih =>
    intro h p hp
    obtain ⟨k2, v2⟩ := q
    by_cases hk : k2 = k
    · simp [dictGet, hk] at h
    · rcases List.mem_cons.mp hp with h1 | h2
      · rw [h1]
        exact hk
      · exact ih (by simpa [dictGet, hk] using h) p h2

/-- Merging a key-unique pair list makes each of its bindings win in the
result: the merged dictionary returns the pair list's own value. -/
theorem dictGet_dictMerge_of_mem (kvs : List (String × Json)) (d : PyDict) (k : String)
    (v : Json) (hnd : (kvs.map Prod.fst).Nodup) (h : dictGet kvs k = some v) :
    dictGet (dictMerge d kvs) k = some v := by
  induction kvs generalizing d with
  | nil => simp [dictGet] at h
  | cons q rest ih =>
    obtain ⟨k2, v2⟩ := q
    rw [List.map_cons, List.nodup_cons] at hnd
    obtain ⟨hmem, hnd2⟩ := hnd
    by_cases hk : k2 = k
    · subst hk
      simp only [dictGet, if_pos] at h
      rw [dictMerge]
      have hmem2 : k2 ∉ List.map Prod.fst rest := hmem
      rw [dictGet_dictMerge_of_not_mem rest (dictSet d k2 v2) k2
        (fun p hp heq => hmem2 (by rw [← heq]; exact List.mem_map_of_mem Prod.fst hp))]
      rw [dictGet_dictSet_self]
      exact h
    · simp only [dictGet, if_neg hk] at h
      rw [dictMerge]
      exact ih (dictSet d k2 v2) hnd2 h

/-- Merging a key-unique pair list over a base without the key makes the
merged lookup agree with the pair list's own lookup, whether or not the key
occurs there. -/
theorem dictGet_dictMerge_of_none (kvs : List (String × Json)) (d : PyDict) (k : String)
    (hnd : (kvs.map Prod.fst).Nodup) (hd : dictGet d k = none) :
    dictGet (dictMerge d kvs) k = dictGet kvs k := by
  cases hkv : dictGet kvs k with
  | none =>
    rw [dictGet_dictMerge_of_not_mem kvs d k (forall_ne_of_dictGet_eq_none k kvs hkv), hd]
  | some v => exact dictGet_dictMerge_of_mem kvs d k v hnd hkv

/-- Validating a list of string atoms recovers the underlying strings. -/
theorem strListOfJson_map (ss : List String) :
    strListOfJson (ss.map Json.str) = Except.ok ss := by
  induction ss with
  | nil => rfl
  | cons s rest ih => simp [strListOfJson, ih]

/-- A successful prefix test decomposes the list as pattern plus remainder. -/
theorem startsWithChars_decomp (pat : List Char) :
    ∀ hay : List Char, startsWithChars pat hay = true → hay = pat ++ hay.drop pat.length := by
  induction pat with
  | nil =>
    intro hay _
    simp
  | cons p ps ih =>
    intro hay h
    cases hay with
    | nil => simp [startsWithChars] at h
    | cons c cs =>
      rw [startsWithChars, Bool.and_eq_true, beq_iff_eq] at h
      obtain ⟨h1, h2⟩ := h
      have h3 := ih cs h2
      rw [h1, List.length_cons, List.cons_append, List.drop_succ_cons]
      exact congrArg (c :: ·) h3

/-- A successful substring search decomposes the haystack: the pattern
occurs exactly at the returned index. -/
theorem findSubstrIdx_decomp :
    ∀ (hay pat : List Char) (i : Nat), findSubstrIdx hay pat = some i →
      hay = hay.take i ++ pat ++ hay.drop (i + pat.length) := by
  intro hay
  induction hay with
  | nil =>
    intro pat i h
    by_cases hs : startsWithChars pat [] = true
    · rw [findSubstrIdx, if_pos hs, Option.some.injEq] at h
      subst h
      simpa using startsWithChars_decomp pat [] hs
    · rw [findSubstrIdx, if_neg hs] at h
      cases h
  | cons c rest ih =>
    intro pat i h
    by_cases hs : startsWithChars pat (c :: rest) = true
    · rw [findSubstrIdx, if_pos hs, Option.some.injEq] at h
      subst h
      simpa using startsWithChars_decomp pat (c :: rest) hs
    · rw [findSubstrIdx, if_neg hs, Option.map_eq_some'] at h
      obtain ⟨i2, hfind, hi⟩ := h
      subst hi
      have h3 := ih pat i2 hfind
      rw [List.take_succ_cons, Nat.add_right_comm, List.drop_succ_cons, List.cons_append,
        List.cons_append]
      exact congrArg (c :: ·) h3

/-- C9: `get_available_equations` is a fixed, pure, ordered list of ten
equation names that contains "Newton's Second Law" and "Einstein's
Mass-Energy Equivalence"; being a constant, it involves no I/O and always
returns the same sequence. -/
theorem c9_available_equations :
    get_available_equations.length = 10 ∧
    "Newton's Second Law" ∈ get_available_equations ∧
    "Einstein's Mass-Energy Equivalence" ∈ get_available_equations := by
  refine ⟨rfl, ?_, ?_⟩ <;> simp [get_available_equations]

/-- C10: constructing a `PhysicsEquationExplainer` always succeeds, for every
`api_key` argument (including none) and every environment; the argument and
the environment have no effect on the constructed object, whose model
identifier is always the fixed string "gemini/gemini-2.5-flash". -/
theorem c10_explainer_init (k : Option String) (env : String → Option String) :
    (PhysicsEquationExplainer.init k env).model = "gemini/gemini-2.5-flash" ∧
    ∀ (k2 : Option String) (env2 : String → Option String),
      PhysicsEquationExplainer.init k env = PhysicsEquationExplainer.init k2 env2 := by
  exact ⟨rfl, fun _ _ => rfl⟩

/-- C7 counterexample: constructing an `ExplanationRequest` with an empty
equation string and the out-of-enumeration difficulty level "expert"
succeeds — no `ValidationError` is raised, so the claimed invariant fails on
both counts. -/
theorem c7_request_validation_cex :
    ExplanationRequest.construct (some "") none none (some "expert") =
      Except.ok
        { equation := "", equation_name := none, context := none,
          difficulty_level := "expert" } ∧
    "" = "" ∧
    ("expert" ≠ "beginner" ∧ "expert" ≠ "intermediate" ∧ "expert" ≠ "advanced") := by
  exact ⟨rfl, rfl, by decide⟩

/-- C7 amended: construction raises `ValidationError` only when the
`equation` argument is missing; any equation string (including the empty
string) and any difficulty string (including values outside the enumeration)
are accepted, with the difficulty defaulting to "intermediate". -/
theorem c7_request_validation (en c dl : Option String) :
    ExplanationRequest.construct none en c dl =
      Except.error "ValidationError: Field required" ∧
    ∀ eq : String,
      ExplanationRequest.construct (some eq) en c dl =
        Except.ok
          { equation := eq, equation_name := en, context := c,
            difficulty_level := dl.getD "intermediate" } := by
  exact ⟨rfl, fun _ => rfl⟩

/-- C5: for every raw text whose candidate payload is not decodable, parse
deterministically yields the fallback record: `simple_explanation` and
`detailed_explanation` are the raw text, `real_world_example` is "Example
not available" and `key_concepts` is empty (the request's name/equation
entries precede them in the returned dict). -/
theorem c5_fallback_determinism (t : String) (req : ExplanationRequest) (e : String)
    (h : jsonLoads (extractCandidate t) = Except.error e) :
    parse_response t req = Except.ok
      [("equation_name", Json.str (pyOr req.equation_name "Physics Equation")),
       ("equation", Json.str req.equation),
       ("simple_explanation", Json.str t),
       ("detailed_explanation", Json.str t),
       ("real_world_example", Json.str "Example not available"),
       ("key_concepts", Json.arr [])] := by
  unfold parse_response
  rw [h]
  rfl

/-- C5 witness: the fallback shape at the concrete reply "This is not JSON". -/
theorem c5_fallback_determinism_w :
    parse_response "This is not JSON" reqNewton = Except.ok
      [("equation_name", Json.str "Newton's Second Law"),
       ("equation", Json.str "F = ma"),
       ("simple_explanation", Json.str "This is not JSON"),
       ("detailed_explanation", Json.str "This is not JSON"),
       ("real_world_example", Json.str "Example not available"),
       ("key_concepts", Json.arr [])] :=
  c5_fallback_determinism "This is not JSON" reqNewton "Expecting value" rfl

/-- C2 counterexample: on the reply "[1, 2]" the candidate payload decodes
successfully to a JSON list, and parse fails with a `TypeError` at the
dictionary unpacking — so parse does not hold a no-fail guarantee for every
raw text. -/
theorem c2_parse_no_fail_cex :
    parse_response "[1, 2]" reqNewton =
      Except.error "TypeError: argument after ** must be a mapping" := rfl

/-- C2 amended: parse never fails and populates every required text field
whenever the candidate payload is not decodable JSON (empty string, prose,
malformed fenced blocks); but when the payload decodes to a non-object JSON
value, parse raises a `TypeError` instead of returning a record. -/
theorem c2_parse_no_fail (t : String) (req : ExplanationRequest) :
    (∀ e, jsonLoads (extractCandidate t) = Except.error e →
      ∃ d, parse_response t req = Except.ok d ∧
        dictGet d "simple_explanation" = some (Json.str t) ∧
        dictGet d "detailed_explanation" = some (Json.str t) ∧
        dictGet d "real_world_example" = some (Json.str "Example not available") ∧
        dictGet d "equation_name" = some (Json.str (pyOr req.equation_name "Physics Equation")) ∧
        dictGet d "equation" = some (Json.str req.equation)) ∧
    (∀ j, jsonLoads (extractCandidate t) = Except.ok j → (∀ kvs, j ≠ Json.obj kvs) →
      ∃ msg, parse_response t req = Except.error msg) := by
  constructor
  · intro e h
    unfold parse_response
    rw [h]
    exact ⟨_, rfl, rfl, rfl, rfl, rfl, rfl⟩
  · intro j h hno
    unfold parse_response
    rw [h]
    cases j with
    | obj kvs => exact absurd rfl (hno kvs)
    | null => exact ⟨_, rfl⟩
    | bool b => exact ⟨_, rfl⟩
    | num s => exact ⟨_, rfl⟩
    | str s => exact ⟨_, rfl⟩
    | arr xs => exact ⟨_, rfl⟩

/-- C2 witness: the no-fail branch at the concrete reply "not json at all". -/
theorem c2_parse_no_fail_w :
    ∃ d, parse_response "not json at all" reqNewton = Except.ok d ∧
      dictGet d "simple_explanation" = some (Json.str "not json at all") ∧
      dictGet d "detailed_explanation" = some (Json.str "not json at all") ∧
      dictGet d "real_world_example" = some (Json.str "Example not available") ∧
      dictGet d "equation_name" =
        some (Json.str (pyOr reqNewton.equation_name "Physics Equation")) ∧
      dictGet d "equation" = some (Json.str reqNewton.equation) :=
  (c2_parse_no_fail "not json at all" reqNewton).1 "Expecting value" rfl

/-- C3 counterexample: the empty-object reply decodes successfully, so the
tier-3 fallback is not used even though every required key is missing — the
returned record carries only the name/equation entries, i.e. a partially
populated record is returned. -/
theorem c3_decode_failure_fallback_cex :
    parse_response "\x7b\x7d" reqNewton = Except.ok
      [("equation_name", Json.str "Newton's Second Law"),
       ("equation", Json.str "F = ma")] ∧
    dictGet
      [("equation_name", Json.str "Newton's Second Law"),
       ("equation", Json.str "F = ma")] "simple_explanation" = none := ⟨rfl, rfl⟩

/-- C3 amended: parse falls through to the tier-3 heuristic fallback only
when decoding raises a syntax error; a payload decoding to a non-object
value makes parse fail with a `TypeError`, and an object payload missing a
required key is returned with that key still missing — partial records are
returned, not replaced by the fallback. -/
theorem c3_decode_failure_fallback (t : String) (req : ExplanationRequest) :
    (∀ e, jsonLoads (extractCandidate t) = Except.error e →
      ∃ d, parse_response t req = Except.ok d ∧
        dictGet d "simple_explanation" = some (Json.str t) ∧
        dictGet d "key_concepts" = some (Json.arr [])) ∧
    (∀ j, jsonLoads (extractCandidate t) = Except.ok j → (∀ kvs, j ≠ Json.obj kvs) →
      parse_response t req = Except.error "TypeError: argument after ** must be a mapping") ∧
    (∀ kvs, jsonLoads (extractCandidate t) = Except.ok (Json.obj kvs) →
      dictGet kvs "simple_explanation" = none →
      ∃ d, parse_response t req = Except.ok d ∧ dictGet d "simple_explanation" = none) := by
  refine ⟨?_, ?_, ?_⟩
  · intro e h
    unfold parse_response
    rw [h]
    exact ⟨_, rfl, rfl, rfl⟩
  · intro j h hno
    unfold parse_response
    rw [h]
    cases j with
    | obj kvs => exact absurd rfl (hno kvs)
    | null => rfl
    | bool b => rfl
    | num s => rfl
    | str s => rfl
    | arr xs => rfl
  · intro kvs h hmiss
    unfold parse_response
    rw [h]
    refine ⟨_, rfl, ?_⟩
    rw [dictGet_dictMerge_of_not_mem kvs (responseBase req) "simple_explanation"
      (forall_ne_of_dictGet_eq_none "simple_explanation" kvs hmiss)]
    rfl

/-- C3 witness: a decodable object payload missing every required key is
passed through without the fallback. -/
theorem c3_decode_failure_fallback_w :
    ∃ d, parse_response "\x7b\"a\": 1\x7d" reqNewton = Except.ok d ∧
      dictGet d "simple_explanation" = none :=
  (c3_decode_failure_fallback "\x7b\"a\": 1\x7d" reqNewton).2.2
    [("a", Json.num "1")] rfl rfl

/-- C1 counterexample: a reply whose payload itself carries an "equation"
key makes parse keep the upstream value: the record's equation is
"E = mc^2" while the request's equation is "F = ma", so the patch is not
unconditional and the upstream value is not discarded. -/
theorem c1_patch_after_parse_cex :
    parse_response "\x7b\"equation\": \"E = mc^2\"\x7d" reqNewton = Except.ok
      [("equation_name", Json.str "Newton's Second Law"),
       ("equation", Json.str "E = mc^2")] ∧
    reqNewton.equation = "F = ma" ∧
    "E = mc^2" ≠ "F = ma" := ⟨rfl, rfl, by decide⟩

/-- C1 amended: the record's equation and name equal the request's equation
and `request.equation_name or "Physics Equation"` whenever the upstream
payload does not itself supply those keys — always in the fallback tier, and
in the decode tier exactly when the decoded object carries no "equation" or
"equation_name" key; payload-supplied values override the request's, since
the request entries are written before the `**` unpacking. -/
theorem c1_patch_after_parse (t : String) (req : ExplanationRequest) :
    (∀ e, jsonLoads (extractCandidate t) = Except.error e →
      ∃ d, parse_response t req = Except.ok d ∧
        dictGet d "equation" = some (Json.str req.equation) ∧
        dictGet d "equation_name" =
          some (Json.str (pyOr req.equation_name "Physics Equation"))) ∧
    (∀ kvs, jsonLoads (extractCandidate t) = Except.ok (Json.obj kvs) →
      dictGet kvs "equation" = none → dictGet kvs "equation_name" = none →
      ∃ d, parse_response t req = Except.ok d ∧
        dictGet d "equation" = some (Json.str req.equation) ∧
        dictGet d "equation_name" =
          some (Json.str (pyOr req.equation_name "Physics Equation"))) := by
  constructor
  · intro e h
    unfold parse_response
    rw [h]
    exact ⟨_, rfl, rfl, rfl⟩
  · intro kvs h he hn
    unfold parse_response
    rw [h]
    refine ⟨_, rfl, ?_, ?_⟩
    · rw [dictGet_dictMerge_of_not_mem kvs (responseBase req) "equation"
        (forall_ne_of_dictGet_eq_none "equation" kvs he)]
      rfl
    · rw [dictGet_dictMerge_of_not_mem kvs (responseBase req) "equation_name"
        (forall_ne_of_dictGet_eq_none "equation_name" kvs hn)]
      rfl

/-- C1 witness: a decodable payload without name/equation keys is patched
with the request's values. -/
theorem c1_patch_after_parse_w :
    ∃ d, parse_response "\x7b\"simple_explanation\": \"s\"\x7d" reqNewton = Except.ok d ∧
      dictGet d "equation" = some (Json.str reqNewton.equation) ∧
      dictGet d "equation_name" =
        some (Json.str (pyOr reqNewton.equation_name "Physics Equation")) :=
  (c1_patch_after_parse "\x7b\"simple_explanation\": \"s\"\x7d" reqNewton).2
    [("simple_explanation", Json.str "s")] rfl rfl rfl

/-- A concrete full EquationExplanation payload whose name and equation
differ from the request's. -/
def tFull : String :=
  "\x7b\"equation_name\": \"Upstream Name\", \"equation\": \"X = y\", \"simple_explanation\": \"s1\", \"detailed_explanation\": \"d1\", \"real_world_example\": \"r1\", \"key_concepts\": [\"k1\", \"k2\"]\x7d"

/-- The decoded object members of `tFull`. -/
def kvsFull : PyDict :=
  [("equation_name", Json.str "Upstream Name"),
   ("equation", Json.str "X = y"),
   ("simple_explanation", Json.str "s1"),
   ("detailed_explanation", Json.str "d1"),
   ("real_world_example", Json.str "r1"),
   ("key_concepts", Json.arr [Json.str "k1", Json.str "k2"])]

/-- A concrete full payload that also carries the optional `introduction`
object, again with name and equation differing from the request's. -/
def tFullIntro : String :=
  "\x7b\"equation_name\": \"Upstream Name\", \"equation\": \"X = y\", \"simple_explanation\": \"s1\", \"detailed_explanation\": \"d1\", \"real_world_example\": \"r1\", \"key_concepts\": [\"k1\", \"k2\"], \"introduction\": \x7b\"equation_name\": \"Intro Name\", \"equation\": \"X = y\", \"overview\": \"o1\", \"significance\": \"g1\", \"context\": \"c1\", \"key_variables\": \x7b\"F\": \"Force\"\x7d\x7d\x7d"

/-- The decoded object members of `tFullIntro`. -/
def kvsFullIntro : PyDict :=
  kvsFull ++
    [("introduction", Json.obj
      [("equation_name", Json.str "Intro Name"),
       ("equation", Json.str "X = y"),
       ("overview", Json.str "o1"),
       ("significance", Json.str "g1"),
       ("context", Json.str "c1"),
       ("key_variables", Json.obj [("F", Json.str "Force")])])]

/-- The `IntroductionModel` encoded by the introduction member of
`tFullIntro`. -/
def introFull : IntroductionModel :=
  { equation_name := "Intro Name", equation := "X = y", overview := "o1",
    significance := "g1", context := "c1", key_variables := [("F", "Force")] }

set_option maxRecDepth 20000 in
/-- C4 counterexample: on a valid full payload, the record returned by
explain keeps the payload's own `equation_name` and `equation` ("Upstream
Name", "X = y") instead of the request's values ("Newton's Second Law",
"F = ma") — the two fields are recovered from the payload, not overwritten
from the request. -/
theorem c4_round_trip_cex :
    explain_equation reqNewton tFull = Except.ok
      { equation_name := "Upstream Name", equation := "X = y",
        simple_explanation := "s1", detailed_explanation := "d1",
        real_world_example := "r1", key_concepts := ["k1", "k2"],
        introduction := none } ∧
    pyOr reqNewton.equation_name "Physics Equation" = "Newton's Second Law" ∧
    reqNewton.equation = "F = ma" ∧
    "Upstream Name" ≠ "Newton's Second Law" ∧
    "X = y" ≠ "F = ma" := ⟨rfl, rfl, rfl, by decide, by decide⟩

/-- C4 amended: if the candidate payload decodes to an object carrying all
required fields (with string values and a string-list for `key_concepts`)
and whose optional `introduction` member — possibly absent — validates to
`intr`, explain recovers every field's value byte-for-byte, the optional
introduction included — and in particular `equation_name` and `equation` are
taken from the payload; the request's values serve only as defaults when
those keys are absent. -/
theorem c4_round_trip (t : String) (req : ExplanationRequest) (kvs : PyDict)
    (nm eqv se de rex : String) (kc : List String) (intr : Option IntroductionModel)
    (hdec : jsonLoads (extractCandidate t) = Except.ok (Json.obj kvs))
    (hnd : (kvs.map Prod.fst).Nodup)
    (hn : dictGet kvs "equation_name" = some (Json.str nm))
    (he : dictGet kvs "equation" = some (Json.str eqv))
    (hse : dictGet kvs "simple_explanation" = some (Json.str se))
    (hde : dictGet kvs "detailed_explanation" = some (Json.str de))
    (hrex : dictGet kvs "real_world_example" = some (Json.str rex))
    (hkc : dictGet kvs "key_concepts" = some (Json.arr (kc.map Json.str)))
    (hin : asOptIntroduction (dictGet kvs "introduction") = Except.ok intr) :
    explain_equation req t = Except.ok
      { equation_name := nm, equation := eqv, simple_explanation := se,
        detailed_explanation := de, real_world_example := rex,
        key_concepts := kc, introduction := intr } := by
  have hp : parse_response t req = Except.ok (dictMerge (responseBase req) kvs) := by
    unfold parse_response
    rw [hdec]
  have h1 := dictGet_dictMerge_of_mem kvs (responseBase req) "equation_name" _ hnd hn
  have h2 := dictGet_dictMerge_of_mem kvs (responseBase req) "equation" _ hnd he
  have h3 := dictGet_dictMerge_of_mem kvs (responseBase req) "simple_explanation" _ hnd hse
  have h4 := dictGet_dictMerge_of_mem kvs (responseBase req) "detailed_explanation" _ hnd hde
  have h5 := dictGet_dictMerge_of_mem kvs (responseBase req) "real_world_example" _ hnd hrex
  have h6 := dictGet_dictMerge_of_mem kvs (responseBase req) "key_concepts" _ hnd hkc
  have h7 : dictGet (dictMerge (responseBase req) kvs) "introduction" =
      dictGet kvs "introduction" :=
    dictGet_dictMerge_of_none kvs (responseBase req) "introduction" hnd rfl
  have hred : explain_equation req t =
      EquationExplanation.ofDict (dictMerge (responseBase req) kvs) := by
    unfold explain_equation
    rw [hp]
  rw [hred]
  unfold EquationExplanation.ofDict
  rw [h1, h2, h3, h4, h5, h6, h7, hin]
  simp [asStr, asStrList, strListOfJson_map]

set_option maxRecDepth 40000 in
/-- C4 witness: the amended round-trip at the concrete full payload
`tFullIntro`, whose optional introduction object is recovered as well. -/
theorem c4_round_trip_w :
    explain_equation reqNewton tFullIntro = Except.ok
      { equation_name := "Upstream Name", equation := "X = y",
        simple_explanation := "s1", detailed_explanation := "d1",
        real_world_example := "r1", key_concepts := ["k1", "k2"],
        introduction := some introFull } :=
  c4_round_trip tFullIntro reqNewton kvsFullIntro "Upstream Name" "X = y" "s1" "d1" "r1"
    ["k1", "k2"] (some introFull) rfl (by decide) rfl rfl rfl rfl rfl rfl rfl

/-- C6: `build_prompt` embeds the guidance string selected by exact match on
the difficulty level: the beginner text for "beginner", the advanced text
for "advanced", and the intermediate text for "intermediate" as well as for
any other (unrecognized) value. -/
theorem c6_difficulty_guidance (req : ExplanationRequest) :
    (req.difficulty_level = "beginner" →
      ∃ pre post, build_prompt req = pre ++ beginnerGuidance ++ post) ∧
    (req.difficulty_level = "advanced" →
      ∃ pre post, build_prompt req = pre ++ advancedGuidance ++ post) ∧
    (req.difficulty_level ≠ "beginner" ∧ req.difficulty_level ≠ "advanced" →
      ∃ pre post, build_prompt req = pre ++ intermediateGuidance ++ post) := by
  have hsplit : ∀ g : String, guidanceFor req.difficulty_level = g →
      ∃ pre post, build_prompt req = pre ++ g ++ post := by
    intro g hg
    refine ⟨"Explain the following physics equation in detail:\n\nEquation: " ++ req.equation
      ++ equationNameInfo req ++ contextInfo req
      ++ "\n\nPlease provide your response in the following JSON format:\n"
      ++ equationExplanationSchemaJson
      ++ "\n\nDifficulty Level: " ++ req.difficulty_level
      ++ "\nGuidance: ",
      "\n\nReturn ONLY valid JSON, no additional text.", ?_⟩
    apply strOfDataEq
    simp [build_prompt, hg, strDataAppend, List.append_assoc]
  refine ⟨?_, ?_, ?_⟩
  · intro h
    exact hsplit beginnerGuidance (by rw [guidanceFor, if_pos h])
  · intro h
    refine hsplit advancedGuidance ?_
    rw [guidanceFor, if_neg (by rw [h]; decide), if_neg (by rw [h]; decide), if_pos h]
  · intro h
    refine hsplit intermediateGuidance ?_
    rw [guidanceFor, if_neg h.1]
    by_cases h2 : req.difficulty_level = "intermediate"
    · rw [if_pos h2]
    · rw [if_neg h2, if_neg h.2]

/-- C6 witness: the beginner guidance is embedded in the prompt of a
concrete beginner-level request. -/
theorem c6_difficulty_guidance_w :
    ∃ pre post, build_prompt
      { equation := "F = ma", equation_name := none, context := none,
        difficulty_level := "beginner" } = pre ++ beginnerGuidance ++ post :=
  (c6_difficulty_guidance
    { equation := "F = ma", equation_name := none, context := none,
      difficulty_level := "beginner" }).1 rfl

/-- The character data of a constructed string is the given list. -/
theorem strDataMk (l : List Char) : (String.mk l).data = l := rfl

/-- C8: when the raw text contains a fenced structured-data block (the
opening marker with a closing marker after it), the candidate payload is
exactly the enclosed text — the text decomposes around the markers and the
extraction returns the enclosed part; otherwise the candidate payload is the
whole raw text. -/
theorem c8_fence_extraction (t : String) :
    (hasJsonFence t = false → extractCandidate t = t) ∧
    (hasJsonFence t = true →
      ∃ pre body post,
        t = pre ++ jsonFenceOpen ++ body ++ jsonFenceClose ++ post ∧
        extractCandidate t = body) := by
  constructor
  · intro h
    cases hfo : findSubstrIdx t.data jsonFenceOpen.data with
    | none => simp only [extractCandidate, hfo]
    | some i =>
      cases hfc : findSubstrIdx (t.data.drop (i + jsonFenceOpen.data.length))
          jsonFenceClose.data with
      | none => simp only [extractCandidate, hfo, hfc]
      | some j =>
        simp only [hasJsonFence, hfo, hfc, Option.isSome] at h
        exact Bool.noConfusion h
  · intro h
    cases hfo : findSubstrIdx t.data jsonFenceOpen.data with
    | none =>
      simp only [hasJsonFence, hfo] at h
      exact Bool.noConfusion h
    | some i =>
      cases hfc : findSubstrIdx (t.data.drop (i + jsonFenceOpen.data.length))
          jsonFenceClose.data with
      | none =>
        simp only [hasJsonFence, hfo, hfc, Option.isSome] at h
        exact Bool.noConfusion h
      | some j =>
        refine ⟨String.mk (t.data.take i),
          String.mk ((t.data.drop (i + jsonFenceOpen.data.length)).take j),
          String.mk ((t.data.drop (i + jsonFenceOpen.data.length)).drop
            (j + jsonFenceClose.data.length)), ?_, ?_⟩
        · apply strOfDataEq
          have h1 := findSubstrIdx_decomp t.data jsonFenceOpen.data i hfo
          have h2 := findSubstrIdx_decomp (t.data.drop (i + jsonFenceOpen.data.length))
            jsonFenceClose.data j hfc
          simp only [strDataAppend, strDataMk]
          conv_lhs => rw [h1]
          conv_lhs => rw [h2]
          simp [List.append_assoc]
        · simp only [extractCandidate, hfo, hfc]

/-- A concrete reply containing a fenced JSON block. -/
def tFenced : String := "reply:\n```json\n\x7b\"a\": 1\x7d\n```\nthanks"

/-- C8 witness: the fenced case at a concrete reply. -/
theorem c8_fence_extraction_w :
    ∃ pre body post,
      tFenced = pre ++ jsonFenceOpen ++ body ++ jsonFenceClose ++ post ∧
      extractCandidate tFenced = body :=
  (c8_fence_extraction tFenced).2 rfl

/-- C7 witness: the amended construction behavior at concrete arguments. -/
theorem c7_request_validation_w :
    ExplanationRequest.construct none none none none =
      Except.error "ValidationError: Field required" ∧
    ∀ eq : String,
      ExplanationRequest.construct (some eq) none none none =
        Except.ok
          { equation := eq, equation_name := none, context := none,
            difficulty_level := (none : Option String).getD "intermediate" } :=
  c7_request_validation none none none

/-- C10 witness: the constructor result at concrete arguments. -/
theorem c10_explainer_init_w :
    (PhysicsEquationExplainer.init (some "key") (fun _ => none)).model =
      "gemini/gemini-2.5-flash" ∧
    ∀ (k2 : Option String) (env2 : String → Option String),
      PhysicsEquationExplainer.init (some "key") (fun _ => none) =
        PhysicsEquationExplainer.init k2 env2 :=
  c10_explainer_init (some "key") (fun _ => none)
